import Mathlib

/-!
# Verification of the fortiap-switch-dashboard utility scripts

This file gives a shallow embedding of the two Python scripts in the
repository and proves the spec claims about them.

* `install-cert-ssh.py` (script 1): a linear procedure that checks two
  certificate files, then runs three SSH sessions through the `expect`
  terminal-automation tool (connectivity test, certificate upload,
  HTTPS-binding configuration), exiting with code 1 on the first failure.
  The outside world (filesystem, the three subprocess runs) is a `World`
  record; `main` is a pure function of it returning the exit code, the
  list of SSH sessions attempted, and the printed messages.

* `vss-to-svg-converter.py` (script 2): argument dispatch plus a
  directory walk that calls the external Aspose.Diagram library per file.
  The library interaction inside each `try` block is modelled as an
  oracle `lib : String → Except String String` keyed by the input path,
  which either yields the SVG payload written to the output path or
  raises an exception message.  For the idempotence claim the library is
  modelled at the content level as `libC : String → Option String` and
  the conversion as a filesystem transformer `convertFS`.

Python string primitives used by the scripts (`str.strip`, `str.lower`,
`x in s`, `str.replace`, `os.path.join`, `os.path.splitext`) are embedded
over `List Char` following their documented CPython semantics.
-/

namespace FortiDash

/-- Python whitespace as used by `str.strip()` with no argument. -/
def pyWhitespace (c : Char) : Bool :=
  c = ' ' || c = '\t' || c = '\n' || c = '\r' || c = '\x0b' || c = '\x0c'

/-- Python `s.strip()`: remove leading and trailing whitespace. -/
def pyStrip (s : String) : String :=
  String.mk (((s.data.dropWhile pyWhitespace).reverse.dropWhile pyWhitespace).reverse)

/-- Python `s.lower()`, character-wise (faithful on the ASCII range the
scripts compare against). -/
def pyLower (s : String) : String :=
  String.mk (s.data.map Char.toLower)

/-- Substring occurrence test on character lists: `subList n h` is true
iff `n` occurs contiguously inside `h`. -/
def subList (needle : List Char) : List Char → Bool
  | [] => needle.isEmpty
  | c :: t => needle.isPrefixOf (c :: t) || subList needle t

/-- Python `needle in hay` for strings. -/
def strContains (hay needle : String) : Bool :=
  subList needle.data hay.data

/-- Python `posixpath.join(a, b)` for a single extra component. -/
def joinPath (a b : String) : String :=
  if b.data.head? = some '/' then b
  else if a = "" || a.data.getLast? = some '/' then a ++ b
  else a ++ "/" ++ b

/-- Index of the last `'.'` in a character list, if any. -/
def lastDotIdx : List Char → Option Nat
  | [] => none
  | c :: rest =>
    match lastDotIdx rest with
    | some i => some (i + 1)
    | none => if c = '.' then some 0 else none

/-- Python `os.path.splitext` restricted to basenames (no path
separator): split at the last dot, except that a basename consisting of
leading dots only up to that dot has no extension. -/
def splitext (p : String) : String × String :=
  match lastDotIdx p.data with
  | none => (p, "")
  | some i =>
    if (p.data.take i).any (fun c => c ≠ '.') then
      (String.mk (p.data.take i), String.mk (p.data.drop i))
    else (p, "")

namespace Vss

/-- Suffix filter of `batch_convert_directory` (line 60):
`file.lower().endswith('.vss')`. -/
def hasVssSuffix (file : String) : Bool :=
  List.isSuffixOf ".vss".data (pyLower file).data

/-- Library-call outcome keyed by input path: did the Aspose load+save
succeed on this input? -/
def libOk (lib : String → Except String String) (p : String) : Bool :=
  match lib p with
  | Except.ok _ => true
  | Except.error _ => false

/-- Observable result of one `convert_vss_to_svg` call. -/
structure ConvResult where
  success : Bool
  messages : List String
  writes : List (String × String)
deriving Repr, DecidableEq

/-- `convert_vss_to_svg` (lines 23–44): try to load the input and save it
as SVG; on success return True, on any library exception print the error
and return False. -/
def convert_vss_to_svg (lib : String → Except String String)
    (input_path output_path : String) : ConvResult :=
  match lib input_path with
  | Except.ok svg =>
    { success := true
      messages := ["Loading VSS file: " ++ input_path,
                   "Converting to SVG: " ++ output_path,
                   "✅ Successfully converted: " ++ input_path ++ " → " ++ output_path]
      writes := [(output_path, svg)] }
  | Except.error e =>
    { success := false
      messages := ["Loading VSS file: " ++ input_path,
                   "❌ Error converting " ++ input_path ++ ": " ++ e]
      writes := [] }

/-- Accumulated observations of the batch loop (lines 69–76). -/
structure LoopAcc where
  successCount : Nat
  calls : List (String × String)
  writes : List (String × String)
  messages : List String
deriving Repr, DecidableEq

/-- Output path derivation of the batch loop (lines 72–73):
`os.path.join(output_dir, os.path.splitext(f)[0] + '.svg')`. -/
def outPath (output_dir f : String) : String :=
  joinPath output_dir ((splitext f).1 ++ ".svg")

/-- The `for vss_file in vss_files` loop of `batch_convert_directory`
(lines 69–76), recorded as an observation trace. -/
def batchLoop (lib : String → Except String String)
    (input_dir output_dir : String) : List String → LoopAcc
  | [] => ⟨0, [], [], []⟩
  | f :: rest =>
    let ip := joinPath input_dir f
    let op := outPath output_dir f
    let c := convert_vss_to_svg lib ip op
    let r := batchLoop lib input_dir output_dir rest
    ⟨(if c.success then 1 else 0) + r.successCount,
     (ip, op) :: r.calls, c.writes ++ r.writes, c.messages ++ r.messages⟩

/-- Observable result of `batch_convert_directory`. -/
structure BatchResult where
  calls : List (String × String)
  writes : List (String × String)
  messages : List String
  successCount : Nat
deriving Repr, DecidableEq

/-- `batch_convert_directory` (lines 46–78): filter the directory listing
by the suffix test, bail out with a message when nothing matches,
otherwise convert each matched file and print the summary. `listing` is
the `os.listdir(input_dir)` result. -/
def batch_convert_directory (lib : String → Except String String)
    (listing : List String) (input_dir output_dir : String) : BatchResult :=
  let vss_files := listing.filter hasVssSuffix
  if vss_files.isEmpty then
    { calls := [], writes := [], messages := ["No VSS files found in " ++ input_dir],
      successCount := 0 }
  else
    let r := batchLoop lib input_dir output_dir vss_files
    { calls := r.calls
      writes := r.writes
      messages := ("Found " ++ toString vss_files.length ++ " VSS files to convert")
        :: (r.messages
          ++ ["\n📊 Conversion complete: " ++ toString r.successCount ++ "/"
              ++ toString vss_files.length ++ " files converted successfully"])
      successCount := r.successCount }

/-- Observable result of one run of script 2's `__main__` block. -/
structure RunResult where
  exitCode : Nat
  calls : List (String × String)
  writes : List (String × String)
  messages : List String
deriving Repr, DecidableEq

/-- Usage message and exit 1 (lines 103–107). -/
def usageResult : RunResult :=
  { exitCode := 1, calls := [], writes := []
    messages := ["Usage:",
                 "  python vss-to-svg-converter.py input.vss output.svg",
                 "  python vss-to-svg-converter.py --batch input_dir output_dir"] }

/-- The `__main__` dispatch of script 2 (lines 80–107). `fsExists` and
`isDir` model `os.path.exists` / `os.path.isdir`; `listing` models
`os.listdir` of the batch input directory; `argv` is the full `sys.argv`
including the program name. -/
def script2Main (fsExists : String → Bool) (isDir : String → Bool)
    (listing : List String) (lib : String → Except String String)
    (argv : List String) : RunResult :=
  match argv with
  | [_, input_file, output_file] =>
    if fsExists input_file = false then
      { exitCode := 1, calls := [], writes := []
        messages := ["❌ Input file not found: " ++ input_file] }
    else
      let c := convert_vss_to_svg lib input_file output_file
      { exitCode := 0, calls := [(input_file, output_file)]
        writes := c.writes, messages := c.messages }
  | [_, flag, input_dir, output_dir] =>
    if flag = "--batch" then
      if isDir input_dir = false then
        { exitCode := 1, calls := [], writes := []
          messages := ["❌ Input directory not found: " ++ input_dir] }
      else
        let b := batch_convert_directory lib listing input_dir output_dir
        { exitCode := 0, calls := b.calls, writes := b.writes, messages := b.messages }
    else usageResult
  | _ => usageResult

/-- Content-level model of the library for the idempotence claim:
`libC content` is the SVG produced from a given input file content, or
`none` when the library raises.  `convertFS` is `convert_vss_to_svg`
viewed as a transformer of the filesystem `fs : path → Option content`:
load the input content, convert, and write the result at the output
path; any failure leaves the filesystem unchanged and returns `false`. -/
def convertFS (libC : String → Option String) (input_path output_path : String)
    (fs : String → Option String) : (String → Option String) × Bool :=
  match fs input_path with
  | none => (fs, false)
  | some content =>
    match libC content with
    | none => (fs, false)
    | some svg => (fun p => if p = output_path then some svg else fs p, true)

/-- A concrete library oracle that succeeds on every input path. -/
def libAllOk : String → Except String String := fun p => Except.ok ("svg of " ++ p)

/-- A concrete library oracle that raises on every input path. -/
def libAllErr : String → Except String String := fun _ => Except.error "boom"

/-- A concrete one-file filesystem. -/
def witFs : String → Option String := fun p => if p = "i" then some "X" else none

/-- A concrete content-level conversion function. -/
def witLibC : String → Option String := fun c => some (c ++ "!")

end Vss

namespace Cert

/-- Outcome of one `expect` subprocess run
(`proc.returncode, stdout, stderr`). -/
structure ProcResult where
  returncode : Int
  stdout : String
  stderr : String
deriving Repr, DecidableEq

/-- The outside world script 1 interacts with: existence of the two
certificate files, their raw contents, and the outcomes of the three
`expect` subprocess invocations (connectivity test, certificate install,
HTTPS configuration), in the order the script would run them. -/
structure World where
  certExists : Bool
  keyExists : Bool
  certContent : String
  keyContent : String
  testRun : ProcResult
  installRun : ProcResult
  configRun : ProcResult

/-- The three SSH sessions of script 1. -/
inductive Session where
  | test
  | install
  | config
deriving Repr, DecidableEq

/-- Observable result of one run of script 1's `main`. -/
structure MainResult where
  exitCode : Nat
  sessions : List Session
  messages : List String

/-- `read_file` (lines 42–45): read and strip the file content. -/
def read_file (content : String) : String := pyStrip content

/-- Quote escaping for the FortiGate CLI (lines 67–69):
`s.replace('"', '\\"')`. -/
def escapeQuotes (s : String) : String :=
  String.mk (s.data.flatMap (fun c => if c = '"' then ['\\', '"'] else [c]))

/-- Step 1 success test (line 87): the connectivity check passes iff the
subprocess exit code is zero and `"Version:"` occurs in its stdout. -/
def step1ok (w : World) : Bool :=
  w.testRun.returncode == 0 && strContains w.testRun.stdout "Version:"

/-- Step 2 success test (line 133): zero subprocess exit code. -/
def step2ok (w : World) : Bool := w.installRun.returncode == 0

/-- Step 3 success test (line 165): zero subprocess exit code. -/
def step3ok (w : World) : Bool := w.configRun.returncode == 0

/-- Fixed text of the `install_script` expect program before the escaped
certificate (lines 98–111, with the configuration constants of lines
13–15 substituted). -/
def installScriptPre : String :=
  "\nspawn ssh -o StrictHostKeyChecking=no -o UserKnownHostsFile=/dev/null admin@192.168.0.254\nset timeout 60\nexpect \"password:\"\nsend \"!cg@RW%G@o\\r\"\nexpect \"#\"\n\nsend \"config vpn certificate local\\r\"\nexpect \"#\"\n\nsend \"edit \\\"fortigate.netintegrate.net\\\"\\r\"\nexpect \"#\"\n\nsend \"set certificate \\\""

/-- Fixed text of `install_script` between the escaped certificate and
the escaped private key (lines 111–114). -/
def installScriptMid : String :=
  "\\\"\\r\"\nexpect \"#\"\n\nsend \"set private-key \\\""

/-- Fixed text of `install_script` after the escaped private key
(lines 114–128). -/
def installScriptPost : String :=
  "\\\"\\r\"\nexpect \"#\"\n\nsend \"set comments \\\"CA-signed certificate from NetIntegrate CA\\\"\\r\"\nexpect \"#\"\n\nsend \"next\\r\"\nexpect \"#\"\n\nsend \"end\\r\"\nexpect \"#\"\n\nsend \"exit\\r\"\nexpect eof\n"

/-- `install_script` (lines 98–128): the expect program of the
certificate-upload session, as a function of the escaped certificate and
escaped private key that the f-string splices in. -/
def installScript (sce pke : String) : String :=
  installScriptPre ++ sce ++ installScriptMid ++ pke ++ installScriptPost

/-- The certificate-upload command text `main` generates for a given
world: file contents read and stripped (lines 64–65), quote-escaped
(lines 68–69), spliced into `install_script` (lines 98–128). -/
def installScriptOf (w : World) : String :=
  installScript (escapeQuotes (read_file w.certContent))
    (escapeQuotes (read_file w.keyContent))

/-- The banner printed before any check (lines 48–51). -/
def headerMsgs : List String :=
  ["🔐 Installing CA-signed certificate on FortiGate via SSH...",
   "📍 Target: 192.168.0.254",
   "👤 User: admin",
   ""]

/-- `main` of script 1 (lines 47–182): check the two certificate files,
then run the three `expect` sessions in order, exiting with code 1 at
the first failure; exit 0 when everything succeeds. -/
def script1Main (w : World) : MainResult :=
  if !(w.certExists && w.keyExists) then
    { exitCode := 1, sessions := []
      messages := headerMsgs
        ++ ["❌ Certificate files not found in ./certificates/",
            "   Run: node generate-fortigate-cert.js first"] }
  else
    let pre1 := headerMsgs
      ++ ["📄 Reading certificate files...",
          "🔄 Step 1: Testing SSH connection..."]
    if !(step1ok w) then
      { exitCode := 1, sessions := [Session.test]
        messages := pre1
          ++ ["❌ Cannot connect to FortiGate via SSH",
              "   Check credentials and network connectivity"] }
    else
      let pre2 := pre1
        ++ ["✅ SSH connection successful", "",
            "🔄 Step 2: Installing server certificate and private key..."]
      if !(step2ok w) then
        { exitCode := 1, sessions := [Session.test, Session.install]
          messages := pre2
            ++ ["❌ Failed to install certificate",
                "Error: " ++ w.installRun.stderr] }
      else
        let pre3 := pre2
          ++ ["✅ Server certificate and private key installed", "",
              "🔄 Step 3: Configuring HTTPS to use new certificate..."]
        if !(step3ok w) then
          { exitCode := 1, sessions := [Session.test, Session.install, Session.config]
            messages := pre3 ++ ["❌ Failed to configure HTTPS certificate"] }
        else
          { exitCode := 0, sessions := [Session.test, Session.install, Session.config]
            messages := pre3
              ++ ["✅ HTTPS configured to use new certificate", "",
                  "✅ Certificate installation completed successfully!", "",
                  "🎯 Next steps:",
                  "1. Wait 30 seconds for FortiGate to apply changes",
                  "2. Add DNS entry:",
                  "   echo \x27192.168.0.254 fortigate.netintegrate.net\x27 | sudo -S tee -a /etc/hosts",
                  "3. Update your .env file:",
                  "   FGT_URL=https://fortigate.netintegrate.net:8443",
                  "   ALLOW_SELF_SIGNED=false",
                  "4. Test the dashboard: curl http://localhost:59169/api/test",
                  ""] }

end Cert

/-! ## Helper lemmas about the substring test -/

lemma isPrefixOf_self_append (n b : List Char) : n.isPrefixOf (n ++ b) = true := by
  induction n with
  | nil => simp [List.isPrefixOf]
  | cons c t ih => simp [List.isPrefixOf, ih]

lemma subList_self_append (n b : List Char) : subList n (n ++ b) = true := by
  cases n with
  | nil => cases b <;> simp [subList, List.isPrefixOf]
  | cons c t => simp [subList, isPrefixOf_self_append]

lemma subList_append_left (a : List Char) {n l : List Char} (h : subList n l = true) :
    subList n (a ++ l) = true := by
  induction a with
  | nil => simpa using h
  | cons c t ih => simp only [List.cons_append, subList, Bool.or_eq_true]; exact Or.inr ih

lemma strContains_of_split (hay s : String) (a b : List Char)
    (h : hay.data = a ++ (s.data ++ b)) : strContains hay s = true := by
  unfold strContains
  rw [h]
  exact subList_append_left a (subList_self_append _ _)

lemma connMsg_ne_error (s : String) :
    "❌ Cannot connect to FortiGate via SSH" ≠ "Error: " ++ s := by
  intro h
  have hd : "❌ Cannot connect to FortiGate via SSH".data = "Error: ".data ++ s.data := by
    rw [← String.data_append, ← h]
  have h1 : "❌ Cannot connect to FortiGate via SSH".data.head? = some '❌' := rfl
  have h2 : ("Error: ".data ++ s.data).head? = some 'E' := rfl
  rw [hd, h2] at h1
  exact absurd (Option.some.inj h1) (by decide)

lemma step1ok_false_iff (w : Cert.World) :
    Cert.step1ok w = false
      ↔ (w.testRun.returncode ≠ 0 ∨ strContains w.testRun.stdout "Version:" = false) := by
  simp only [Cert.step1ok, Bool.and_eq_false_iff, beq_eq_false_iff_ne, ne_eq]

/-! ## Script 1 claims -/

/-- Claim C3: script 1 (`main`) exits with code 1 whenever either fixed-path
input file (`certificates/fortigate.crt` or `certificates/fortigate.key`)
is missing — in which case no SSH session is attempted — or the
connectivity test fails, or any installation step fails; in every other
run it exits with code 0. -/
theorem install_exit_codes (w : Cert.World) :
    ((Cert.script1Main w).exitCode
      = if w.certExists && w.keyExists && Cert.step1ok w && Cert.step2ok w && Cert.step3ok w
        then 0 else 1)
    ∧ ((w.certExists && w.keyExists) = false → (Cert.script1Main w).sessions = []) := by
  cases hc : w.certExists <;> cases hk : w.keyExists <;>
    cases h1 : Cert.step1ok w <;> cases h2 : Cert.step2ok w <;> cases h3 : Cert.step3ok w <;>
    simp [Cert.script1Main, hc, hk, h1, h2, h3]

/-- Witness for C3: a world with both certificate files missing exits
with code 1 and attempts no SSH session. -/
theorem install_exit_codes_witness :
    (Cert.script1Main
        { certExists := false, keyExists := false, certContent := "", keyContent := ""
          testRun := ⟨0, "", ""⟩, installRun := ⟨0, "", ""⟩, configRun := ⟨0, "", ""⟩ }).exitCode = 1
    ∧ (Cert.script1Main
        { certExists := false, keyExists := false, certContent := "", keyContent := ""
          testRun := ⟨0, "", ""⟩, installRun := ⟨0, "", ""⟩, configRun := ⟨0, "", ""⟩ }).sessions = [] := by
  have h := install_exit_codes
    { certExists := false, keyExists := false, certContent := "", keyContent := ""
      testRun := ⟨0, "", ""⟩, installRun := ⟨0, "", ""⟩, configRun := ⟨0, "", ""⟩ }
  exact ⟨h.1.trans (by decide), h.2 (by decide)⟩

/-- Claim C4: with both certificate files present, script 1's
connectivity test fails — printing the connectivity-failure message with
exit code 1 — if and only if the `expect` subprocess exit code is
non-zero or the literal substring `"Version:"` is absent from the
captured stdout; no other parsing of the device response decides this
step. -/
theorem connectivity_test_criterion (w : Cert.World)
    (hc : w.certExists = true) (hk : w.keyExists = true) :
    ((Cert.script1Main w).exitCode = 1
        ∧ "❌ Cannot connect to FortiGate via SSH" ∈ (Cert.script1Main w).messages)
      ↔ (w.testRun.returncode ≠ 0 ∨ strContains w.testRun.stdout "Version:" = false) := by
  rw [← step1ok_false_iff]
  cases h1 : Cert.step1ok w
  · simp [Cert.script1Main, hc, hk, h1, Cert.headerMsgs]
  · cases h2 : Cert.step2ok w <;> cases h3 : Cert.step3ok w <;>
      simp [Cert.script1Main, hc, hk, h1, h2, h3, Cert.headerMsgs] <;>
      intro h <;> exact absurd h (connMsg_ne_error _)

/-- Witness for C4: a world whose connectivity subprocess exits non-zero
satisfies the failure condition, prints the message and exits 1. -/
theorem connectivity_test_criterion_witness :
    (Cert.script1Main
        { certExists := true, keyExists := true, certContent := "C", keyContent := "K"
          testRun := ⟨1, "", ""⟩, installRun := ⟨0, "", ""⟩, configRun := ⟨0, "", ""⟩ }).exitCode = 1
    ∧ "❌ Cannot connect to FortiGate via SSH" ∈ (Cert.script1Main
        { certExists := true, keyExists := true, certContent := "C", keyContent := "K"
          testRun := ⟨1, "", ""⟩, installRun := ⟨0, "", ""⟩, configRun := ⟨0, "", ""⟩ }).messages :=
  (connectivity_test_criterion
    { certExists := true, keyExists := true, certContent := "C", keyContent := "K"
      testRun := ⟨1, "", ""⟩, installRun := ⟨0, "", ""⟩, configRun := ⟨0, "", ""⟩ }
    rfl rfl).mpr (Or.inl (by decide))

/-- Claim C5: script 1 runs its SSH sessions strictly in the order
connectivity test, certificate upload, HTTPS-binding configuration; each
later step runs only if every earlier step succeeded, any step failure
terminates the whole script immediately with exit code 1, and no session
is ever retried. -/
theorem sessions_sequencing (w : Cert.World) :
    ((Cert.script1Main w).sessions
        = [Cert.Session.test, Cert.Session.install, Cert.Session.config].take
            (Cert.script1Main w).sessions.length)
    ∧ (Cert.Session.install ∈ (Cert.script1Main w).sessions
        ↔ (w.certExists && w.keyExists && Cert.step1ok w) = true)
    ∧ (Cert.Session.config ∈ (Cert.script1Main w).sessions
        ↔ (w.certExists && w.keyExists && Cert.step1ok w && Cert.step2ok w) = true)
    ∧ (Cert.script1Main w).sessions.count Cert.Session.test ≤ 1
    ∧ (Cert.script1Main w).sessions.count Cert.Session.install ≤ 1
    ∧ (Cert.script1Main w).sessions.count Cert.Session.config ≤ 1
    ∧ ((w.certExists && w.keyExists) = true → Cert.step1ok w = false →
        (Cert.script1Main w).exitCode = 1
          ∧ (Cert.script1Main w).sessions = [Cert.Session.test])
    ∧ ((w.certExists && w.keyExists && Cert.step1ok w) = true → Cert.step2ok w = false →
        (Cert.script1Main w).exitCode = 1
          ∧ (Cert.script1Main w).sessions = [Cert.Session.test, Cert.Session.install])
    ∧ ((w.certExists && w.keyExists && Cert.step1ok w && Cert.step2ok w) = true →
        Cert.step3ok w = false → (Cert.script1Main w).exitCode = 1) := by
  cases hc : w.certExists <;> cases hk : w.keyExists <;>
    cases h1 : Cert.step1ok w <;> cases h2 : Cert.step2ok w <;> cases h3 : Cert.step3ok w <;>
    simp [Cert.script1Main, hc, hk, h1, h2, h3]

/-- Witness for C5: with the files present and a failing connectivity
test, the run exits 1 having attempted exactly the test session. -/
theorem sessions_sequencing_witness :
    (Cert.script1Main
        { certExists := true, keyExists := true, certContent := "C", keyContent := "K"
          testRun := ⟨1, "", ""⟩, installRun := ⟨0, "", ""⟩, configRun := ⟨0, "", ""⟩ }).exitCode = 1
    ∧ (Cert.script1Main
        { certExists := true, keyExists := true, certContent := "C", keyContent := "K"
          testRun := ⟨1, "", ""⟩, installRun := ⟨0, "", ""⟩, configRun := ⟨0, "", ""⟩ }).sessions
        = [Cert.Session.test] :=
  (sessions_sequencing
    { certExists := true, keyExists := true, certContent := "C", keyContent := "K"
      testRun := ⟨1, "", ""⟩, installRun := ⟨0, "", ""⟩, configRun := ⟨0, "", ""⟩
    }).2.2.2.2.2.2.1 (by decide) (by decide)

set_option maxRecDepth 4000 in
/-- Counterexample for C7 as stated: with certificate file content `" A"`
(a leading space) and key file content `"K"`, the raw certificate content
with only quote-escaping applied (still `" A"`) does NOT occur in the
generated certificate-upload command text, because `read_file` strips
surrounding whitespace before the content is escaped and embedded. -/
theorem upload_raw_embedding_fails :
    strContains
      (Cert.installScriptOf
        { certExists := true, keyExists := true, certContent := " A", keyContent := "K"
          testRun := ⟨0, "", ""⟩, installRun := ⟨0, "", ""⟩, configRun := ⟨0, "", ""⟩ })
      (Cert.escapeQuotes " A") = false := by
  decide

/-- Claim C7 (amended): for every pair of input file contents, the
certificate-upload command text contains the certificate text and the
private-key text as read by `read_file` — i.e. stripped of leading and
trailing whitespace — with each double-quote replaced by a
backslash-escaped double-quote. -/
theorem upload_embeds_stripped_escaped (w : Cert.World) :
    strContains (Cert.installScriptOf w)
        (Cert.escapeQuotes (Cert.read_file w.certContent)) = true
    ∧ strContains (Cert.installScriptOf w)
        (Cert.escapeQuotes (Cert.read_file w.keyContent)) = true := by
  constructor
  · exact strContains_of_split _ _ Cert.installScriptPre.data
      (Cert.installScriptMid.data
        ++ ((Cert.escapeQuotes (Cert.read_file w.keyContent)).data
          ++ Cert.installScriptPost.data))
      (by simp [Cert.installScriptOf, Cert.installScript, String.data_append])
  · exact strContains_of_split _ _
      (Cert.installScriptPre.data
        ++ ((Cert.escapeQuotes (Cert.read_file w.certContent)).data
          ++ Cert.installScriptMid.data))
      Cert.installScriptPost.data
      (by simp [Cert.installScriptOf, Cert.installScript, String.data_append])

/-! ## Helper lemmas about the batch loop -/

lemma convert_success_eq (lib : String → Except String String) (ip op : String) :
    (Vss.convert_vss_to_svg lib ip op).success = Vss.libOk lib ip := by
  unfold Vss.convert_vss_to_svg Vss.libOk
  cases lib ip <;> rfl

lemma batchLoop_calls (lib : String → Except String String) (idir odir : String)
    (l : List String) :
    (Vss.batchLoop lib idir odir l).calls
      = l.map (fun f => (joinPath idir f, Vss.outPath odir f)) := by
  induction l with
  | nil => rfl
  | cons f t ih => simp [Vss.batchLoop, ih]

lemma batchLoop_successCount (lib : String → Except String String) (idir odir : String)
    (l : List String) :
    (Vss.batchLoop lib idir odir l).successCount
      = l.countP (fun f => Vss.libOk lib (joinPath idir f)) := by
  induction l with
  | nil => rfl
  | cons f t ih =>
    simp only [Vss.batchLoop, ih, convert_success_eq, List.countP_cons]
    cases Vss.libOk lib (joinPath idir f) <;> simp [Nat.add_comm]

lemma batchLoop_messages (lib : String → Except String String) (idir odir : String)
    (l : List String) :
    (Vss.batchLoop lib idir odir l).messages
      = l.flatMap (fun f =>
          (Vss.convert_vss_to_svg lib (joinPath idir f) (Vss.outPath odir f)).messages) := by
  induction l with
  | nil => rfl
  | cons f t ih => simp [Vss.batchLoop, ih]

lemma batch_calls_eq (lib : String → Except String String) (listing : List String)
    (idir odir : String) :
    (Vss.batch_convert_directory lib listing idir odir).calls
      = (listing.filter Vss.hasVssSuffix).map
          (fun f => (joinPath idir f, Vss.outPath odir f)) := by
  cases h : (listing.filter Vss.hasVssSuffix).isEmpty
  · simp [Vss.batch_convert_directory, h, batchLoop_calls]
  · have he : listing.filter Vss.hasVssSuffix = [] := List.isEmpty_iff.mp h
    simp [Vss.batch_convert_directory, h, he]

lemma batch_messages_nonempty (lib : String → Except String String) (listing : List String)
    (idir odir : String)
    (hne : (listing.filter Vss.hasVssSuffix).isEmpty = false) :
    (Vss.batch_convert_directory lib listing idir odir).messages
      = ("Found " ++ toString (listing.filter Vss.hasVssSuffix).length
            ++ " VSS files to convert")
        :: ((Vss.batchLoop lib idir odir (listing.filter Vss.hasVssSuffix)).messages
          ++ ["\n📊 Conversion complete: "
              ++ toString (Vss.batchLoop lib idir odir
                    (listing.filter Vss.hasVssSuffix)).successCount
              ++ "/" ++ toString (listing.filter Vss.hasVssSuffix).length
              ++ " files converted successfully"]) := by
  simp [Vss.batch_convert_directory, hne]

/-! ## Script 2 claims -/

/-- Claim C1: in batch mode, a directory whose listing has no file
matching the script's `.vss` suffix test yields the no-files message and
no conversion calls; otherwise the conversion is invoked once per
matched file (N calls) and the final printed line reports
`M/N files converted successfully` where `M` counts the files the
library converts successfully. -/
theorem batch_summary_counts (lib : String → Except String String)
    (listing : List String) (idir odir : String) :
    (listing.filter Vss.hasVssSuffix = [] →
      (Vss.batch_convert_directory lib listing idir odir).calls = []
        ∧ (Vss.batch_convert_directory lib listing idir odir).messages
            = ["No VSS files found in " ++ idir])
    ∧ (listing.filter Vss.hasVssSuffix ≠ [] →
      (Vss.batch_convert_directory lib listing idir odir).calls
          = (listing.filter Vss.hasVssSuffix).map
              (fun f => (joinPath idir f, Vss.outPath odir f))
        ∧ (Vss.batch_convert_directory lib listing idir odir).messages.getLast?
            = some ("\n📊 Conversion complete: "
                ++ toString ((listing.filter Vss.hasVssSuffix).countP
                      (fun f => Vss.libOk lib (joinPath idir f)))
                ++ "/" ++ toString (listing.filter Vss.hasVssSuffix).length
                ++ " files converted successfully")) := by
  constructor
  · intro h
    simp [Vss.batch_convert_directory, h]
  · intro h
    have hne : (listing.filter Vss.hasVssSuffix).isEmpty = false := by
      cases hiso : (listing.filter Vss.hasVssSuffix).isEmpty
      · rfl
      · exact absurd (List.isEmpty_iff.mp hiso) h
    refine ⟨batch_calls_eq lib listing idir odir, ?_⟩
    rw [batch_messages_nonempty lib listing idir odir hne, ← List.cons_append,
      List.getLast?_concat, batchLoop_successCount]

/-- Witness for C1: one matching and one non-matching file, an
all-succeeding library: one call, summary `1/1`. -/
theorem batch_summary_counts_witness :
    (Vss.batch_convert_directory Vss.libAllOk ["a.vss", "b.txt"] "in" "out").calls
        = [("in/a.vss", "out/a.svg")]
    ∧ (Vss.batch_convert_directory Vss.libAllOk ["a.vss", "b.txt"] "in" "out").messages.getLast?
        = some "\n📊 Conversion complete: 1/1 files converted successfully" := by
  have h := (batch_summary_counts Vss.libAllOk ["a.vss", "b.txt"] "in" "out").2 (by decide)
  exact ⟨h.1.trans (by decide), h.2.trans (by decide)⟩

/-- Claim C2: in single-file mode, a nonexistent input path exits with
code 1 without invoking the conversion library, and a valid convertible
input has its output written at the exact output path given on the
command line (with exit code 0). -/
theorem single_file_dispatch (fsE isD : String → Bool) (listing : List String)
    (lib : String → Except String String) (prog input output : String) :
    (fsE input = false →
      Vss.script2Main fsE isD listing lib [prog, input, output]
        = { exitCode := 1, calls := [], writes := []
            messages := ["❌ Input file not found: " ++ input] })
    ∧ (fsE input = true → ∀ svg, lib input = Except.ok svg →
      (Vss.script2Main fsE isD listing lib [prog, input, output]).writes = [(output, svg)]
        ∧ (Vss.script2Main fsE isD listing lib [prog, input, output]).exitCode = 0) := by
  constructor
  · intro h
    simp [Vss.script2Main, h]
  · intro h svg hsvg
    simp [Vss.script2Main, h, Vss.convert_vss_to_svg, hsvg]

/-- Witness for C2: an existing, convertible input writes the SVG at the
given output path and exits 0. -/
theorem single_file_dispatch_witness :
    (Vss.script2Main (fun _ => true) (fun _ => false) [] Vss.libAllOk
        ["prog", "in.vss", "out.svg"]).writes = [("out.svg", "svg of in.vss")]
    ∧ (Vss.script2Main (fun _ => true) (fun _ => false) [] Vss.libAllOk
        ["prog", "in.vss", "out.svg"]).exitCode = 0 := by
  have h := (single_file_dispatch (fun _ => true) (fun _ => false) [] Vss.libAllOk
    "prog" "in.vss" "out.svg").2 rfl ("svg of " ++ "in.vss") rfl
  exact ⟨h.1.trans (by decide), h.2⟩

/-- Claim C6: in batch mode, a file on which the library raises is
still invoked (its call appears), its exception is logged as an error
message, it is excluded from the success count, the run continues to
completion, and the final summary reports success count over total
count. -/
theorem batch_error_resilience (lib : String → Except String String)
    (listing : List String) (idir odir f e : String)
    (hf : f ∈ listing.filter Vss.hasVssSuffix)
    (he : lib (joinPath idir f) = Except.error e) :
    ((joinPath idir f, Vss.outPath odir f)
        ∈ (Vss.batch_convert_directory lib listing idir odir).calls)
    ∧ ("❌ Error converting " ++ joinPath idir f ++ ": " ++ e)
        ∈ (Vss.batch_convert_directory lib listing idir odir).messages
    ∧ Vss.libOk lib (joinPath idir f) = false
    ∧ (Vss.batch_convert_directory lib listing idir odir).successCount
        = (listing.filter Vss.hasVssSuffix).countP
            (fun g => Vss.libOk lib (joinPath idir g))
    ∧ (Vss.batch_convert_directory lib listing idir odir).messages.getLast?
        = some ("\n📊 Conversion complete: "
            ++ toString ((listing.filter Vss.hasVssSuffix).countP
                  (fun g => Vss.libOk lib (joinPath idir g)))
            ++ "/" ++ toString (listing.filter Vss.hasVssSuffix).length
            ++ " files converted successfully") := by
  have hnil : listing.filter Vss.hasVssSuffix ≠ [] := List.ne_nil_of_mem hf
  have hne : (listing.filter Vss.hasVssSuffix).isEmpty = false := by
    cases hiso : (listing.filter Vss.hasVssSuffix).isEmpty
    · rfl
    · exact absurd (List.isEmpty_iff.mp hiso) hnil
  refine ⟨?_, ?_, ?_, ?_, ?_⟩
  · rw [batch_calls_eq]
    exact List.mem_map_of_mem _ hf
  · rw [batch_messages_nonempty lib listing idir odir hne, batchLoop_messages]
    simp only [List.mem_cons, List.mem_append, List.mem_flatMap]
    refine Or.inr (Or.inl ⟨f, hf, ?_⟩)
    simp [Vss.convert_vss_to_svg, he]
  · simp [Vss.libOk, he]
  · simp [Vss.batch_convert_directory, hne, batchLoop_successCount]
  · rw [batch_messages_nonempty lib listing idir odir hne, ← List.cons_append,
      List.getLast?_concat, batchLoop_successCount]

/-- Witness for C6: a single matching file on which the library raises
is logged and the summary reports `0/1`. -/
theorem batch_error_resilience_witness :
    "❌ Error converting in/a.vss: boom"
        ∈ (Vss.batch_convert_directory Vss.libAllErr ["a.vss"] "in" "out").messages
    ∧ (Vss.batch_convert_directory Vss.libAllErr ["a.vss"] "in" "out").messages.getLast?
        = some "\n📊 Conversion complete: 0/1 files converted successfully" := by
  have h := batch_error_resilience Vss.libAllErr ["a.vss"] "in" "out" "a.vss" "boom"
    (by decide) rfl
  refine ⟨?_, h.2.2.2.2.trans (by decide)⟩
  have heq : ("❌ Error converting " ++ joinPath "in" "a.vss" ++ ": " ++ "boom")
      = "❌ Error converting in/a.vss: boom" := by decide
  exact heq ▸ h.2.1

/-- Claim C9 (implicit): in single-file mode, when the input exists but
the library raises, the exception is caught, an error message is
printed, nothing is written, and the process still exits with code 0. -/
theorem single_file_failure_exit_zero (fsE isD : String → Bool) (listing : List String)
    (lib : String → Except String String) (prog input output e : String)
    (hex : fsE input = true) (herr : lib input = Except.error e) :
    (Vss.script2Main fsE isD listing lib [prog, input, output]).exitCode = 0
    ∧ ("❌ Error converting " ++ input ++ ": " ++ e)
        ∈ (Vss.script2Main fsE isD listing lib [prog, input, output]).messages
    ∧ (Vss.script2Main fsE isD listing lib [prog, input, output]).writes = [] := by
  simp [Vss.script2Main, hex, Vss.convert_vss_to_svg, herr]

/-- Witness for C9: an existing input with an always-raising library
exits 0 and prints the error. -/
theorem single_file_failure_exit_zero_witness :
    (Vss.script2Main (fun _ => true) (fun _ => false) [] Vss.libAllErr
        ["prog", "in.vss", "out.svg"]).exitCode = 0
    ∧ "❌ Error converting in.vss: boom"
        ∈ (Vss.script2Main (fun _ => true) (fun _ => false) [] Vss.libAllErr
            ["prog", "in.vss", "out.svg"]).messages := by
  have h := single_file_failure_exit_zero (fun _ => true) (fun _ => false) []
    Vss.libAllErr "prog" "in.vss" "out.svg" "boom" rfl rfl
  have heq : ("❌ Error converting " ++ "in.vss" ++ ": " ++ "boom")
      = "❌ Error converting in.vss: boom" := by decide
  exact ⟨h.1, heq ▸ h.2.1⟩

/-- Claim C10 (implicit): batch mode selects a file exactly when its
name lowercased ends with `.vss`, and each selected file is converted
from its path under the input directory to the output directory joined
with the filename whose extension is replaced by `.svg` (extension in
the sense of `os.path.splitext`). -/
theorem batch_selection_and_naming (lib : String → Except String String)
    (listing : List String) (idir odir : String) :
    (Vss.batch_convert_directory lib listing idir odir).calls
      = (listing.filter (fun f => List.isSuffixOf ".vss".data (pyLower f).data)).map
          (fun f => (joinPath idir f, joinPath odir ((splitext f).1 ++ ".svg"))) := by
  rw [batch_calls_eq]
  rfl

/-- Claim C8: the conversion, with the external diagram library modelled
as a function of the input content, is idempotent and deterministic:
re-running it on its own result changes nothing and returns the same
outcome, and any filesystem agreeing on the input content yields the
same outcome and the same output content. -/
theorem conversion_idempotent (libC : String → Option String) (input output : String)
    (fs : String → Option String) (h : input ≠ output) :
    Vss.convertFS libC input output (Vss.convertFS libC input output fs).1
        = Vss.convertFS libC input output fs
    ∧ (∀ fs2 : String → Option String, fs2 input = fs input →
        (Vss.convertFS libC input output fs2).2 = (Vss.convertFS libC input output fs).2
        ∧ ((Vss.convertFS libC input output fs).2 = true →
            (Vss.convertFS libC input output fs2).1 output
              = (Vss.convertFS libC input output fs).1 output)) := by
  cases hin : fs input with
  | none =>
    have hres : Vss.convertFS libC input output fs = (fs, false) := by
      simp only [Vss.convertFS, hin]
    refine ⟨by rw [hres]; exact hres, ?_⟩
    intro fs2 hg
    have hres2 : Vss.convertFS libC input output fs2 = (fs2, false) := by
      simp only [Vss.convertFS, hg]
    rw [hres, hres2]
    exact ⟨rfl, by intro hh; exact absurd hh (by simp)⟩
  | some c =>
    cases hc : libC c with
    | none =>
      have hres : Vss.convertFS libC input output fs = (fs, false) := by
        simp only [Vss.convertFS, hin, hc]
      refine ⟨by rw [hres]; exact hres, ?_⟩
      intro fs2 hg
      have hres2 : Vss.convertFS libC input output fs2 = (fs2, false) := by
        simp only [Vss.convertFS, hg, hc]
      rw [hres, hres2]
      exact ⟨rfl, by intro hh; exact absurd hh (by simp)⟩
    | some svg =>
      have hres : Vss.convertFS libC input output fs
          = (fun p => if p = output then some svg else fs p, true) := by
        simp only [Vss.convertFS, hin, hc]
      refine ⟨?_, ?_⟩
      · rw [hres]
        have hin2 : (fun p => if p = output then some svg else fs p) input = some c := by
          simp [h, hin]
        simp only [Vss.convertFS, hin2, hc, Prod.mk.injEq]
        refine ⟨?_, trivial⟩
        funext p
        by_cases hp : p = output <;> simp [hp]
      · intro fs2 hg
        have hres2 : Vss.convertFS libC input output fs2
            = (fun p => if p = output then some svg else fs2 p, true) := by
          simp only [Vss.convertFS, hg, hc]
        rw [hres, hres2]
        exact ⟨rfl, fun _ => by simp⟩

/-- Witness for C8: a one-file filesystem with a total content
transformer; re-running the conversion on its own result is a no-op. -/
theorem conversion_idempotent_witness :
    Vss.convertFS Vss.witLibC "i" "o" (Vss.convertFS Vss.witLibC "i" "o" Vss.witFs).1
      = Vss.convertFS Vss.witLibC "i" "o" Vss.witFs :=
  (conversion_idempotent Vss.witLibC "i" "o" Vss.witFs (by decide)).1

end FortiDash

